import Mathlib

/-!
Shallow embedding of the Sey-go travel guide admin backend:
the data-access layer (`src/server/storage.ts`, class `DatabaseStorage`)
and the request-handler layer (`src/unnamed/part_000`, `registerRoutes`
and `seedDatabase`).

The relational store is modelled as explicit state: one list of rows per
table plus a serial-id counter per table and a clock supplying generated
timestamps.  Each storage method becomes a pure function on that state;
each route handler becomes a function from state and request data to a
response paired with the next state.  External collaborators (the zod
validation schemas of `@shared/routes`, the body-normalisation input
shape) are passed in as parameters.
-/

namespace SeyGo

/-- Modelled from the spec: the `users` table row of `@shared/schema`
(not under src/): id, name, email, role, status, joinedAt; the id is a
generated serial and joinedAt a generated timestamp. -/
structure User where
  id : Nat
  name : String
  email : String
  role : String
  status : String
  joinedAt : Nat
deriving Repr, DecidableEq

/-- Modelled from the spec: caller-supplied user fields (`InsertUser` of
`@shared/schema`, not under src/): the row minus generated id/joinedAt. -/
structure InsertUser where
  name : String
  email : String
  role : String
  status : String
deriving Repr, DecidableEq

/-- Modelled from the spec: the `places` table row of `@shared/schema`
(not under src/); amenities and coordinates are stored as encoded text. -/
structure Place where
  id : Nat
  name : String
  description : String
  location : String
  category : String
  imageUrl : String
  rating : String
  status : String
  amenities : String
  coordinates : String
  createdAt : Nat
deriving Repr, DecidableEq

/-- Modelled from the spec: caller-supplied place fields (`InsertPlace`
of `@shared/schema`, not under src/). -/
structure InsertPlace where
  name : String
  description : String
  location : String
  category : String
  imageUrl : String
  rating : String
  status : String
  amenities : String
  coordinates : String
deriving Repr, DecidableEq

/-- Modelled from the spec: the `playlists` table row of `@shared/schema`
(not under src/). -/
structure Playlist where
  id : Nat
  name : String
  description : String
  creatorId : Nat
  creatorName : String
  status : String
  placesCount : Nat
  isFeatured : Bool
  visibility : String
  createdAt : Nat
deriving Repr, DecidableEq

/-- Modelled from the spec: caller-supplied playlist fields
(`InsertPlaylist` of `@shared/schema`, not under src/). -/
structure InsertPlaylist where
  name : String
  description : String
  creatorId : Nat
  creatorName : String
  status : String
  placesCount : Nat
  isFeatured : Bool
  visibility : String
deriving Repr, DecidableEq

/-- Modelled from the spec: the `trips` table row of `@shared/schema`
(not under src/): id, userId, destination, status. -/
structure Trip where
  id : Nat
  userId : Nat
  destination : String
  status : String
deriving Repr, DecidableEq

/-- Modelled from the spec: caller-supplied trip fields (`InsertTrip` of
`@shared/schema`, not under src/). -/
structure InsertTrip where
  userId : Nat
  destination : String
  status : String
deriving Repr, DecidableEq

/-- Modelled from the spec: the `reviews` table row of `@shared/schema`
(not under src/). -/
structure Review where
  id : Nat
  userId : Nat
  userName : String
  placeId : Nat
  placeName : String
  content : String
  rating : String
  status : String
  createdAt : Nat
deriving Repr, DecidableEq

/-- Modelled from the spec: caller-supplied review fields (`InsertReview`
of `@shared/schema`, not under src/). -/
structure InsertReview where
  userId : Nat
  userName : String
  placeId : Nat
  placeName : String
  content : String
  rating : String
  status : String
deriving Repr, DecidableEq

/-- Modelled from the spec: the `photos` table row of `@shared/schema`
(not under src/). -/
structure Photo where
  id : Nat
  uploaderId : Nat
  uploaderName : String
  url : String
  caption : String
  relatedType : String
  relatedId : Nat
  status : String
  createdAt : Nat
deriving Repr, DecidableEq

/-- Modelled from the spec: caller-supplied photo fields (`InsertPhoto`
of `@shared/schema`, not under src/). -/
structure InsertPhoto where
  uploaderId : Nat
  uploaderName : String
  url : String
  caption : String
  relatedType : String
  relatedId : Nat
  status : String
deriving Repr, DecidableEq

/-- The relational store reachable through `db` in `storage.ts`: one list
of rows per table, a serial counter per table for generated ids, and a
clock supplying generated creation timestamps. -/
structure DB where
  users : List User
  places : List Place
  playlists : List Playlist
  trips : List Trip
  reviews : List Review
  photos : List Photo
  nextUserId : Nat
  nextPlaceId : Nat
  nextPlaylistId : Nat
  nextTripId : Nat
  nextReviewId : Nat
  nextPhotoId : Nat
  now : Nat
deriving Repr, DecidableEq

/-- Insert an element into a list sorted in descending key order, before
the first element with a strictly smaller key. -/
def insertDescBy (key : α → Nat) (a : α) : List α → List α
  | [] => [a]
  | b :: bs => if key b < key a then a :: b :: bs else b :: insertDescBy key a bs

/-- Sort a list in descending order of a Nat key: the semantics of the
SQL `ORDER BY key DESC` used by the listing queries. -/
def sortDescBy (key : α → Nat) (l : List α) : List α :=
  l.foldr (insertDescBy key) []

/-! Storage operations, from `class DatabaseStorage` in
`src/server/storage.ts`.  A `select ... where eq(t.id, id)` destructured
as `[x]` becomes `List.find?`; `insert ... returning()` appends a row
built from the serial counter and the clock; `update ... set ... where`
maps over the table; `delete ... where` filters the table. -/

/-- `getUsers`: select all users ordered by descending joinedAt. -/
def getUsers (db : DB) : List User :=
  sortDescBy User.joinedAt db.users

/-- `getUser`: first user row whose id matches, or the absent signal. -/
def getUser (db : DB) (id : Nat) : Option User :=
  db.users.find? (fun u => u.id == id)

/-- `createUser`: insert with generated id and joinedAt, returning the
stored row. -/
def createUser (db : DB) (u : InsertUser) : User × DB :=
  let row : User :=
    { id := db.nextUserId, name := u.name, email := u.email, role := u.role,
      status := u.status, joinedAt := db.now }
  (row, { db with users := db.users ++ [row], nextUserId := db.nextUserId + 1 })

/-- `updateUserStatus`: set the status field on every row whose id
matches and return the first updated row (`undefined` when none). -/
def updateUserStatus (db : DB) (id : Nat) (status : String) : Option User × DB :=
  let newUsers := db.users.map (fun u => if u.id == id then { u with status := status } else u)
  (newUsers.find? (fun u => u.id == id), { db with users := newUsers })

/-- `deleteUser`: delete every row whose id matches; no error when none. -/
def deleteUser (db : DB) (id : Nat) : DB :=
  { db with users := db.users.filter (fun u => !(u.id == id)) }

/-- `getPlaces`: select all places ordered by descending createdAt. -/
def getPlaces (db : DB) : List Place :=
  sortDescBy Place.createdAt db.places

/-- `getPlace`: first place row whose id matches, or the absent signal. -/
def getPlace (db : DB) (id : Nat) : Option Place :=
  db.places.find? (fun p => p.id == id)

/-- `createPlace`: insert with generated id and createdAt, returning the
stored row. -/
def createPlace (db : DB) (p : InsertPlace) : Place × DB :=
  let row : Place :=
    { id := db.nextPlaceId, name := p.name, description := p.description,
      location := p.location, category := p.category, imageUrl := p.imageUrl,
      rating := p.rating, status := p.status, amenities := p.amenities,
      coordinates := p.coordinates, createdAt := db.now }
  (row, { db with places := db.places ++ [row], nextPlaceId := db.nextPlaceId + 1 })

/-- `deletePlace`: delete every row whose id matches; no error when none. -/
def deletePlace (db : DB) (id : Nat) : DB :=
  { db with places := db.places.filter (fun p => !(p.id == id)) }

/-- `getPlaylists`: select all playlists ordered by descending createdAt. -/
def getPlaylists (db : DB) : List Playlist :=
  sortDescBy Playlist.createdAt db.playlists

/-- `createPlaylist`: insert with generated id and createdAt, returning
the stored row. -/
def createPlaylist (db : DB) (p : InsertPlaylist) : Playlist × DB :=
  let row : Playlist :=
    { id := db.nextPlaylistId, name := p.name, description := p.description,
      creatorId := p.creatorId, creatorName := p.creatorName, status := p.status,
      placesCount := p.placesCount, isFeatured := p.isFeatured,
      visibility := p.visibility, createdAt := db.now }
  (row, { db with playlists := db.playlists ++ [row], nextPlaylistId := db.nextPlaylistId + 1 })

/-- `updatePlaylistStatus`: set the status field on every row whose id
matches and return the first updated row (`undefined` when none). -/
def updatePlaylistStatus (db : DB) (id : Nat) (status : String) : Option Playlist × DB :=
  let newRows := db.playlists.map (fun p => if p.id == id then { p with status := status } else p)
  (newRows.find? (fun p => p.id == id), { db with playlists := newRows })

/-- `getTrips`: select all trips, unordered. -/
def getTrips (db : DB) : List Trip :=
  db.trips

/-- `createTrip`: insert with generated id, returning the stored row. -/
def createTrip (db : DB) (t : InsertTrip) : Trip × DB :=
  let row : Trip :=
    { id := db.nextTripId, userId := t.userId, destination := t.destination,
      status := t.status }
  (row, { db with trips := db.trips ++ [row], nextTripId := db.nextTripId + 1 })

/-- `getReviews`: select all reviews ordered by descending createdAt. -/
def getReviews (db : DB) : List Review :=
  sortDescBy Review.createdAt db.reviews

/-- `createReview`: insert with generated id and createdAt, returning
the stored row. -/
def createReview (db : DB) (r : InsertReview) : Review × DB :=
  let row : Review :=
    { id := db.nextReviewId, userId := r.userId, userName := r.userName,
      placeId := r.placeId, placeName := r.placeName, content := r.content,
      rating := r.rating, status := r.status, createdAt := db.now }
  (row, { db with reviews := db.reviews ++ [row], nextReviewId := db.nextReviewId + 1 })

/-- `updateReviewStatus`: set the status field on every row whose id
matches and return the first updated row (`undefined` when none). -/
def updateReviewStatus (db : DB) (id : Nat) (status : String) : Option Review × DB :=
  let newRows := db.reviews.map (fun r => if r.id == id then { r with status := status } else r)
  (newRows.find? (fun r => r.id == id), { db with reviews := newRows })

/-- `getPhotos`: select all photos ordered by descending createdAt. -/
def getPhotos (db : DB) : List Photo :=
  sortDescBy Photo.createdAt db.photos

/-- `createPhoto`: insert with generated id and createdAt, returning the
stored row. -/
def createPhoto (db : DB) (p : InsertPhoto) : Photo × DB :=
  let row : Photo :=
    { id := db.nextPhotoId, uploaderId := p.uploaderId, uploaderName := p.uploaderName,
      url := p.url, caption := p.caption, relatedType := p.relatedType,
      relatedId := p.relatedId, status := p.status, createdAt := db.now }
  (row, { db with photos := db.photos ++ [row], nextPhotoId := db.nextPhotoId + 1 })

/-- `updatePhotoStatus`: set the status field on every row whose id
matches and return the first updated row (`undefined` when none). -/
def updatePhotoStatus (db : DB) (id : Nat) (status : String) : Option Photo × DB :=
  let newRows := db.photos.map (fun p => if p.id == id then { p with status := status } else p)
  (newRows.find? (fun p => p.id == id), { db with photos := newRows })

/-- The `StatsResponse` shape of the dashboard aggregate. -/
structure StatsResponse where
  totalTrips : Nat
  totalPlaylists : Nat
  totalPlaces : Nat
  activeUsers : Nat
  pendingReviews : Nat
deriving Repr, DecidableEq

/-- `getDashboardStats`: fetch all rows of five tables and compute the
five counts in memory. -/
def getDashboardStats (db : DB) : StatsResponse :=
  let allTrips := getTrips db
  let allPlaylists := getPlaylists db
  let allPlaces := getPlaces db
  let allUsers := getUsers db
  let allReviews := getReviews db
  { totalTrips := allTrips.length,
    totalPlaylists := allPlaylists.length,
    totalPlaces := allPlaces.length,
    activeUsers := (allUsers.filter (fun u => u.status == "active")).length,
    pendingReviews := (allReviews.filter (fun r => r.status == "pending")).length }

/-- One entry of the mocked activity series. -/
structure ActivityEntry where
  date : String
  trips : Nat
  playlists : Nat
deriving Repr, DecidableEq

/-- The fixed six period labels of the mock activity data. -/
def activityDates : List String :=
  ["2024-01", "2024-02", "2024-03", "2024-04", "2024-05", "2024-06"]

/-- `getActivityStats`: map the fixed labels to entries whose counts come
from two fresh random draws each.  `Math.floor(Math.random() * k)`, a
uniform draw from 0 to k-1, is modelled as `rng i % k` where `rng` is the
arbitrary sequence of outcomes of the unseeded source and `i` numbers the
calls in evaluation order. -/
def getActivityStats (rng : Nat → Nat) : List ActivityEntry :=
  activityDates.enum.map (fun e =>
    { date := e.2, trips := rng (2 * e.1) % 50 + 10, playlists := rng (2 * e.1 + 1) % 20 + 5 })

/-! Request-handler layer, from `registerRoutes` in `src/unnamed/part_000`.
Validation of create bodies is delegated to an external schema collaborator
(`@shared/routes`, zod); it is passed in as a `parse` parameter returning
either the typed record or a validation error carrying a list of per-field
issues.  A response is a status code with a JSON payload (`payload = none`
models serializing JavaScript `undefined`), a message object, an empty
body, or an exception that escaped the handler to the framework's generic
error path. -/

/-- One issue of a validation error, exposing its message. -/
structure ZodIssue where
  message : String
deriving Repr, DecidableEq

/-- A validation error: a list of per-field issues. -/
structure ZodError where
  errors : List ZodIssue
deriving Repr, DecidableEq

/-- `err.errors[0].message`: the first issue's message, absent when the
issue list is empty (JavaScript index out of range gives `undefined`). -/
def ZodError.firstMessage (e : ZodError) : Option String :=
  e.errors.head?.map ZodIssue.message

/-- Outcome of one route handler invocation. -/
inductive HttpResponse (α : Type) where
  | json (status : Nat) (payload : Option α)
  | jsonMessage (status : Nat) (message : Option String)
  | noBody (status : Nat)
  | raised (err : ZodError)
deriving Repr, DecidableEq

/-- GET dashboard stats handler. -/
def dashboardStatsHandler (db : DB) : HttpResponse StatsResponse :=
  .json 200 (some (getDashboardStats db))

/-- GET dashboard activity handler. -/
def dashboardActivityHandler (rng : Nat → Nat) : HttpResponse (List ActivityEntry) :=
  .json 200 (some (getActivityStats rng))

/-- GET places list handler. -/
def placesListHandler (db : DB) : HttpResponse (List Place) :=
  .json 200 (some (getPlaces db))

/-- GET place by id handler: 404 with a message when the store returns
the absent signal, otherwise the row. -/
def placesGetHandler (db : DB) (id : Nat) : HttpResponse Place :=
  match getPlace db id with
  | none => .jsonMessage 404 (some "Place not found")
  | some p => .json 200 (some p)

/-- POST places handler: normalize the body, validate it, insert on
success (201 with the stored row); a validation error is caught and
answered with 400 and the first issue's message. -/
def placesCreateHandler {β : Type} (norm : β → β)
    (parse : β → Except ZodError InsertPlace) (db : DB) (body : β) :
    HttpResponse Place × DB :=
  match parse (norm body) with
  | .error e => (.jsonMessage 400 e.firstMessage, db)
  | .ok input =>
    let r := createPlace db input
    (.json 201 (some r.1), r.2)

/-- DELETE place handler: unconditional delete, 204 with empty body. -/
def placesDeleteHandler (db : DB) (id : Nat) : HttpResponse Place × DB :=
  (.noBody 204, deletePlace db id)

/-- GET playlists list handler. -/
def playlistsListHandler (db : DB) : HttpResponse (List Playlist) :=
  .json 200 (some (getPlaylists db))

/-- POST playlists handler: validate and insert.  There is no catch
around the parse call, so a validation error escapes the handler. -/
def playlistsCreateHandler {β : Type}
    (parse : β → Except ZodError InsertPlaylist) (db : DB) (body : β) :
    HttpResponse Playlist × DB :=
  match parse body with
  | .error e => (.raised e, db)
  | .ok input =>
    let r := createPlaylist db input
    (.json 201 (some r.1), r.2)

/-- PATCH playlist status handler: update and serialize whatever the
storage call returned, with no presence check. -/
def playlistsUpdateStatusHandler (db : DB) (id : Nat) (status : String) :
    HttpResponse Playlist × DB :=
  let r := updatePlaylistStatus db id status
  (.json 200 r.1, r.2)

/-- GET users list handler. -/
def usersListHandler (db : DB) : HttpResponse (List User) :=
  .json 200 (some (getUsers db))

/-- PATCH user status handler: update and serialize whatever the storage
call returned, with no presence check. -/
def usersUpdateStatusHandler (db : DB) (id : Nat) (status : String) :
    HttpResponse User × DB :=
  let r := updateUserStatus db id status
  (.json 200 r.1, r.2)

/-- DELETE user handler: unconditional delete, 204 with empty body. -/
def usersDeleteHandler (db : DB) (id : Nat) : HttpResponse User × DB :=
  (.noBody 204, deleteUser db id)

/-- GET moderation reviews handler: fetch all reviews, then filter in
memory to those with status "pending". -/
def moderationReviewsListHandler (db : DB) : HttpResponse (List Review) :=
  let pending := (getReviews db).filter (fun r => r.status == "pending")
  .json 200 (some pending)

/-- PATCH moderation review handler: update and serialize whatever the
storage call returned, with no presence check. -/
def moderationReviewsActionHandler (db : DB) (id : Nat) (status : String) :
    HttpResponse Review × DB :=
  let r := updateReviewStatus db id status
  (.json 200 r.1, r.2)

/-- GET moderation photos handler: fetch all photos, then filter in
memory to those with status "pending". -/
def moderationPhotosListHandler (db : DB) : HttpResponse (List Photo) :=
  let pending := (getPhotos db).filter (fun p => p.status == "pending")
  .json 200 (some pending)

/-- PATCH moderation photo handler: update and serialize whatever the
storage call returned, with no presence check. -/
def moderationPhotosActionHandler (db : DB) (id : Nat) (status : String) :
    HttpResponse Photo × DB :=
  let r := updatePhotoStatus db id status
  (.json 200 r.1, r.2)

/-! Startup seeding, from `seedDatabase` in `src/unnamed/part_000`.
The body of the `try` block performs sixteen store operations in order:
the guarding `getUsers` and, when the user table is empty, fifteen
inserts.  A store failure at any of them is modelled by the oracle
`fails`: operation `k` raises exactly when `fails k` is true, carrying
the state committed so far (the inserts are independent, so a partial
seed persists).  `seedDatabaseInner` is the `try` body; `seedDatabase`
wraps it in the catch that swallows the failure. -/

/-- The `try` body of `seedDatabase`: check emptiness of the user table,
then insert 4 users, 3 places, 2 playlists, 3 trips, 2 reviews and
1 photo, wiring cross-references from the rows returned by earlier
inserts; raise (as `.error` with the partial state) at the first
operation `k` with `fails k`. -/
def seedDatabaseInner (fails : Nat → Bool) (db0 : DB) : Except DB DB :=
  if fails 0 then .error db0 else
  if (getUsers db0).length == 0 then
    if fails 1 then .error db0 else
    let r1 := createUser db0
      { name := "Sarah Miller", email := "sarah@example.com", role := "user", status := "active" }
    let user1 := r1.1
    let db1 := r1.2
    if fails 2 then .error db1 else
    let r2 := createUser db1
      { name := "John Doe", email := "john@example.com", role := "user", status := "active" }
    let user2 := r2.1
    let db2 := r2.2
    if fails 3 then .error db2 else
    let r3 := createUser db2
      { name := "TravelSL", email := "travel@example.com", role := "admin", status := "active" }
    let user3 := r3.1
    let db3 := r3.2
    if fails 4 then .error db3 else
    let r4 := createUser db3
      { name := "Mike Smith", email := "mike@example.com", role := "user", status := "disabled" }
    let db4 := r4.2
    if fails 5 then .error db4 else
    let q1 := createPlace db4
      { name := "Secret Beach Cove",
        description := "A hidden gem with pristine white sand and turquoise waters.",
        location := "Mirissa, South Coast", category := "Beach",
        imageUrl := "https://images.unsplash.com/photo-1507525428034-b723cf961d3e",
        rating := "4.8", status := "active",
        amenities := "[\"Parking\",\"WiFi\",\"Restrooms\"]",
        coordinates := "\x7b\"lat\":5.9485,\"lng\":80.5353\x7d" }
    let place1 := q1.1
    let db5 := q1.2
    if fails 6 then .error db5 else
    let q2 := createPlace db5
      { name := "Hidden Waterfall Trail",
        description := "A scenic hike leading to a breathtaking waterfall.",
        location := "Ella, Hill Country", category := "Nature",
        imageUrl := "https://images.unsplash.com/photo-1432405972618-c60b0225b8f9",
        rating := "4.9", status := "active",
        amenities := "[\"Guide Available\",\"Hiking\"]",
        coordinates := "\x7b\"lat\":6.8667,\"lng\":81.0466\x7d" }
    let place2 := q2.1
    let db6 := q2.2
    if fails 7 then .error db6 else
    let q3 := createPlace db6
      { name := "Ancient Temple Ruins",
        description := "Historical ruins dating back to the 5th century.",
        location := "Anuradhapura", category := "Cultural",
        imageUrl := "https://images.unsplash.com/photo-1588596623667-27e163b96c9c",
        rating := "4.7", status := "active",
        amenities := "[\"Guide Available\"]",
        coordinates := "\x7b\"lat\":8.3114,\"lng\":80.4037\x7d" }
    let db7 := q3.2
    if fails 8 then .error db7 else
    let w1 := createPlaylist db7
      { name := "Southern Coast Adventure",
        description := "Explore the best beaches and coastal towns.",
        creatorId := user3.id, creatorName := user3.name, status := "approved",
        placesCount := 8, isFeatured := true, visibility := "public" }
    let db8 := w1.2
    if fails 9 then .error db8 else
    let w2 := createPlaylist db8
      { name := "Hill Country Hikes",
        description := "Best hiking trails in Ella and Nuwara Eliya.",
        creatorId := user2.id, creatorName := user2.name, status := "pending",
        placesCount := 6, isFeatured := false, visibility := "public" }
    let db9 := w2.2
    if fails 10 then .error db9 else
    let t1 := createTrip db9
      { userId := user1.id, destination := "Sri Lanka", status := "completed" }
    let db10 := t1.2
    if fails 11 then .error db10 else
    let t2 := createTrip db10
      { userId := user2.id, destination := "Maldives", status := "planned" }
    let db11 := t2.2
    if fails 12 then .error db11 else
    let t3 := createTrip db11
      { userId := user1.id, destination := "Japan", status := "completed" }
    let db12 := t3.2
    if fails 13 then .error db12 else
    let v1 := createReview db12
      { userId := user1.id, userName := user1.name, placeId := place1.id,
        placeName := place1.name, content := "Absolutely stunning place! Must visit.",
        rating := "5", status := "pending" }
    let db13 := v1.2
    if fails 14 then .error db13 else
    let v2 := createReview db13
      { userId := user2.id, userName := user2.name, placeId := place2.id,
        placeName := place2.name, content := "A bit hard to find, but worth the hike.",
        rating := "4", status := "approved" }
    let db14 := v2.2
    if fails 15 then .error db14 else
    let g1 := createPhoto db14
      { uploaderId := user1.id, uploaderName := user1.name,
        url := "https://images.unsplash.com/photo-1506929562872-bb421503ef21",
        caption := "Sunset at the beach", relatedType := "place",
        relatedId := place1.id, status := "pending" }
    let db15 := g1.2
    .ok db15
  else .ok db0

/-- `seedDatabase`: run the `try` body and swallow any failure, keeping
whatever state was committed before it; the caller always gets a state
back, never an error. -/
def seedDatabase (fails : Nat → Bool) (db : DB) : DB :=
  match seedDatabaseInner fails db with
  | .ok d => d
  | .error d => d

/-- A store with every table empty and all serial counters at 1. -/
def emptyDB : DB :=
  { users := [], places := [], playlists := [], trips := [], reviews := [],
    photos := [], nextUserId := 1, nextPlaceId := 1, nextPlaylistId := 1,
    nextTripId := 1, nextReviewId := 1, nextPhotoId := 1, now := 0 }

/-- The create/read round-trip property of C6: the row returned by a
create is found again under its returned id and carries every
caller-supplied field unchanged. -/
def CreateGetRoundtrip (db : DB) (u : InsertUser) (p : InsertPlace) : Prop :=
  (getUser (createUser db u).2 (createUser db u).1.id = some (createUser db u).1 ∧
    (createUser db u).1.name = u.name ∧ (createUser db u).1.email = u.email ∧
    (createUser db u).1.role = u.role ∧ (createUser db u).1.status = u.status) ∧
  (getPlace (createPlace db p).2 (createPlace db p).1.id = some (createPlace db p).1 ∧
    (createPlace db p).1.name = p.name ∧ (createPlace db p).1.description = p.description ∧
    (createPlace db p).1.location = p.location ∧ (createPlace db p).1.category = p.category ∧
    (createPlace db p).1.imageUrl = p.imageUrl ∧ (createPlace db p).1.rating = p.rating ∧
    (createPlace db p).1.status = p.status ∧ (createPlace db p).1.amenities = p.amenities ∧
    (createPlace db p).1.coordinates = p.coordinates)

/-- Pointwise frame relation of a status-only update of the user table:
row for row, every field is preserved, except that the status of the
rows with the targeted id becomes the given value. -/
def UserStatusFrame (id : Nat) (s : String) (old new : List User) : Prop :=
  List.Forall₂ (fun u v => v.id = u.id ∧ v.name = u.name ∧ v.email = u.email ∧
    v.role = u.role ∧ v.joinedAt = u.joinedAt ∧
    v.status = if u.id = id then s else u.status) old new

/-- Pointwise frame relation of a status-only update of the playlist
table. -/
def PlaylistStatusFrame (id : Nat) (s : String) (old new : List Playlist) : Prop :=
  List.Forall₂ (fun p v => v.id = p.id ∧ v.name = p.name ∧ v.description = p.description ∧
    v.creatorId = p.creatorId ∧ v.creatorName = p.creatorName ∧
    v.placesCount = p.placesCount ∧ v.isFeatured = p.isFeatured ∧
    v.visibility = p.visibility ∧ v.createdAt = p.createdAt ∧
    v.status = if p.id = id then s else p.status) old new

/-- Pointwise frame relation of a status-only update of the review
table. -/
def ReviewStatusFrame (id : Nat) (s : String) (old new : List Review) : Prop :=
  List.Forall₂ (fun r v => v.id = r.id ∧ v.userId = r.userId ∧ v.userName = r.userName ∧
    v.placeId = r.placeId ∧ v.placeName = r.placeName ∧ v.content = r.content ∧
    v.rating = r.rating ∧ v.createdAt = r.createdAt ∧
    v.status = if r.id = id then s else r.status) old new

/-- Pointwise frame relation of a status-only update of the photo
table. -/
def PhotoStatusFrame (id : Nat) (s : String) (old new : List Photo) : Prop :=
  List.Forall₂ (fun p v => v.id = p.id ∧ v.uploaderId = p.uploaderId ∧
    v.uploaderName = p.uploaderName ∧ v.url = p.url ∧ v.caption = p.caption ∧
    v.relatedType = p.relatedType ∧ v.relatedId = p.relatedId ∧
    v.createdAt = p.createdAt ∧
    v.status = if p.id = id then s else p.status) old new

/-- A sample rng outcome sequence for concrete runs of the activity
series. -/
def sampleRng : Nat → Nat := fun k => 3 * k + 7

/-- A sample user row for concrete instantiations. -/
def sampleUser : User :=
  { id := 1, name := "Ann", email := "ann@example.com", role := "user",
    status := "active", joinedAt := 10 }

/-- A sample playlist row for concrete instantiations. -/
def samplePlaylist : Playlist :=
  { id := 1, name := "Coast", description := "d", creatorId := 1, creatorName := "Ann",
    status := "pending", placesCount := 2, isFeatured := false, visibility := "public",
    createdAt := 10 }

/-- A sample review row for concrete instantiations. -/
def sampleReview : Review :=
  { id := 1, userId := 1, userName := "Ann", placeId := 1, placeName := "Cove",
    content := "nice", rating := "5", status := "pending", createdAt := 10 }

/-- A sample photo row for concrete instantiations. -/
def samplePhoto : Photo :=
  { id := 1, uploaderId := 1, uploaderName := "Ann", url := "u", caption := "c",
    relatedType := "place", relatedId := 1, status := "pending", createdAt := 10 }

/-- A store holding one sample row with id 1 in each mutable-status
table. -/
def sampleDB : DB :=
  { emptyDB with
    users := [sampleUser], playlists := [samplePlaylist],
    reviews := [sampleReview], photos := [samplePhoto],
    nextUserId := 2, nextPlaylistId := 2, nextReviewId := 2, nextPhotoId := 2 }

/-- A concrete validation error carrying one issue, for concrete runs of
the create handlers. -/
def e0 : ZodError := { errors := [{ message := "Required" }] }

/-- A place validator rejecting every body with `e0`. -/
def pfail : Unit → Except ZodError InsertPlace := fun _ => .error e0

/-- A playlist validator rejecting every body with `e0`. -/
def plfail : Unit → Except ZodError InsertPlaylist := fun _ => .error e0

/-- A body normalisation that changes nothing. -/
def unitNorm : Unit → Unit := fun u => u

/-- What a complete seeding run leaves behind, relative to the prior
state: exactly 4 users, 3 places, 2 playlists, 3 trips, 2 reviews and
1 photo are added, and the cross-referencing rows point at the ids of
the rows inserted before them (playlist to its creator user, review to
its place, photo to its uploader user and related place). -/
def SeededOutcome (db after : DB) : Prop :=
  after.users.length = db.users.length + 4 ∧
  after.places.length = db.places.length + 3 ∧
  after.playlists.length = db.playlists.length + 2 ∧
  after.trips.length = db.trips.length + 3 ∧
  after.reviews.length = db.reviews.length + 2 ∧
  after.photos.length = db.photos.length + 1 ∧
  (∃ u ∈ after.users, ∃ w ∈ after.playlists,
    u.name = "TravelSL" ∧ w.name = "Southern Coast Adventure" ∧
    w.creatorId = u.id ∧ w.creatorName = u.name) ∧
  (∃ q ∈ after.places, ∃ v ∈ after.reviews,
    q.name = "Secret Beach Cove" ∧ v.placeName = q.name ∧ v.placeId = q.id) ∧
  (∃ u ∈ after.users, ∃ q ∈ after.places, ∃ g ∈ after.photos,
    u.name = "Sarah Miller" ∧ q.name = "Secret Beach Cove" ∧
    g.uploaderId = u.id ∧ g.uploaderName = u.name ∧ g.relatedId = q.id)

/-! Theorems. -/

theorem insertDescBy_perm (key : α → Nat) (a : α) (l : List α) :
    (insertDescBy key a l).Perm (a :: l) := by
  induction l with
  | nil => exact List.Perm.refl _
  | cons b bs ih =>
    simp only [insertDescBy]
    split
    · exact List.Perm.refl _
    · exact (ih.cons b).trans (List.Perm.swap a b bs)

theorem sortDescBy_perm (key : α → Nat) (l : List α) :
    (sortDescBy key l).Perm l := by
  induction l with
  | nil => exact List.Perm.refl _
  | cons a as ih =>
    exact (insertDescBy_perm key a (sortDescBy key as)).trans (ih.cons a)

theorem sortDescBy_length (key : α → Nat) (l : List α) :
    (sortDescBy key l).length = l.length :=
  (sortDescBy_perm key l).length_eq

theorem sortDescBy_countP (key : α → Nat) (p : α → Bool) (l : List α) :
    (sortDescBy key l).countP p = l.countP p :=
  (sortDescBy_perm key l).countP_eq p

theorem sortDescBy_mem (key : α → Nat) (a : α) (l : List α) :
    a ∈ sortDescBy key l ↔ a ∈ l :=
  (sortDescBy_perm key l).mem_iff

/-- C1: for every store state, `getDashboardStats` returns exactly the
five counts obtained by full scans of the tables: the numbers of trip,
playlist and place rows, the number of users with status "active", and
the number of reviews with status "pending" — hence in particular after
any sequence of create and update-status operations. -/
theorem getDashboardStats_counts (db : DB) :
    getDashboardStats db =
      { totalTrips := db.trips.length,
        totalPlaylists := db.playlists.length,
        totalPlaces := db.places.length,
        activeUsers := (db.users.filter (fun u => u.status == "active")).length,
        pendingReviews := (db.reviews.filter (fun r => r.status == "pending")).length } := by
  unfold getDashboardStats getTrips getPlaylists getPlaces getUsers getReviews
  have h1 : (sortDescBy Playlist.createdAt db.playlists).length = db.playlists.length :=
    sortDescBy_length _ _
  have h2 : (sortDescBy Place.createdAt db.places).length = db.places.length :=
    sortDescBy_length _ _
  have h3 : ((sortDescBy User.joinedAt db.users).filter (fun u => u.status == "active")).length
      = (db.users.filter (fun u => u.status == "active")).length :=
    ((sortDescBy_perm User.joinedAt db.users).filter _).length_eq
  have h4 : ((sortDescBy Review.createdAt db.reviews).filter (fun r => r.status == "pending")).length
      = (db.reviews.filter (fun r => r.status == "pending")).length :=
    ((sortDescBy_perm Review.createdAt db.reviews).filter _).length_eq
  simp [h1, h2, h3, h4]

/-- C2: the moderation listings return exactly the rows with status
"pending": the reviews handler (and likewise the photos handler) answers
with a list every element of which has status "pending", which omits no
pending element of the full listing, and which is a subset of the full
listing. -/
theorem moderation_listing_pending (db : DB) :
    (∃ l, moderationReviewsListHandler db = .json 200 (some l) ∧
      (∀ r ∈ l, r.status = "pending") ∧
      (∀ r ∈ getReviews db, r.status = "pending" → r ∈ l) ∧
      l ⊆ getReviews db) ∧
    (∃ l, moderationPhotosListHandler db = .json 200 (some l) ∧
      (∀ p ∈ l, p.status = "pending") ∧
      (∀ p ∈ getPhotos db, p.status = "pending" → p ∈ l) ∧
      l ⊆ getPhotos db) := by
  constructor
  · refine ⟨(getReviews db).filter (fun r => r.status == "pending"), rfl, ?_, ?_, ?_⟩
    · intro r hr
      simpa using (List.mem_filter.mp hr).2
    · intro r hr hs
      exact List.mem_filter.mpr ⟨hr, by simpa using hs⟩
    · intro r hr
      exact (List.mem_filter.mp hr).1
  · refine ⟨(getPhotos db).filter (fun p => p.status == "pending"), rfl, ?_, ?_, ?_⟩
    · intro p hp
      simpa using (List.mem_filter.mp hp).2
    · intro p hp hs
      exact List.mem_filter.mpr ⟨hp, by simpa using hs⟩
    · intro p hp
      exact (List.mem_filter.mp hp).1

/-- C8: for every outcome of the random source, `getActivityStats`
returns exactly 6 entries labelled "2024-01" through "2024-06" in order,
with each trips count in [10,59] and each playlists count in [5,24]. -/
theorem getActivityStats_shape (rng : Nat → Nat) :
    (getActivityStats rng).length = 6 ∧
    (getActivityStats rng).map ActivityEntry.date =
      ["2024-01", "2024-02", "2024-03", "2024-04", "2024-05", "2024-06"] ∧
    ∀ e ∈ getActivityStats rng,
      10 ≤ e.trips ∧ e.trips ≤ 59 ∧ 5 ≤ e.playlists ∧ e.playlists ≤ 24 := by
  refine ⟨rfl, rfl, ?_⟩
  intro e he
  simp [getActivityStats, activityDates, List.enum] at he
  rcases he with h | h | h | h | h | h <;> subst h <;> dsimp only <;> omega

/-- C4: for every id matching no row, `getUser` and `getPlace` return the
explicit absent signal (`none`), never a default record and never an
error, and the place by-id route answers 404 with a message body. -/
theorem get_by_id_absent (db : DB) (id : Nat)
    (hu : ∀ u ∈ db.users, u.id ≠ id) (hp : ∀ p ∈ db.places, p.id ≠ id) :
    getUser db id = none ∧ getPlace db id = none ∧
    placesGetHandler db id = .jsonMessage 404 (some "Place not found") := by
  have h1 : getUser db id = none :=
    List.find?_eq_none.mpr (fun u hu' => by simpa using hu u hu')
  have h2 : getPlace db id = none :=
    List.find?_eq_none.mpr (fun p hp' => by simpa using hp p hp')
  refine ⟨h1, h2, ?_⟩
  unfold placesGetHandler
  rw [h2]

/-- Witness for C4: the empty store has no row with id 1, and the reads
and the route behave as stated there. -/
theorem get_by_id_absent_witness :
    (∀ u ∈ emptyDB.users, u.id ≠ 1) ∧ (∀ p ∈ emptyDB.places, p.id ≠ 1) ∧
    (getUser emptyDB 1 = none ∧ getPlace emptyDB 1 = none ∧
      placesGetHandler emptyDB 1 = .jsonMessage 404 (some "Place not found")) :=
  ⟨by simp [emptyDB], by simp [emptyDB],
    get_by_id_absent emptyDB 1 (by simp [emptyDB]) (by simp [emptyDB])⟩

/-- C7: for every id, the delete operations of User and Place never
raise (they are total functions on the store) and are idempotent:
repeating a delete changes nothing, and when no row matches the store is
left unchanged. -/
theorem delete_idempotent (db : DB) (id : Nat) :
    deleteUser (deleteUser db id) id = deleteUser db id ∧
    deletePlace (deletePlace db id) id = deletePlace db id ∧
    ((∀ u ∈ db.users, u.id ≠ id) → deleteUser db id = db) ∧
    ((∀ p ∈ db.places, p.id ≠ id) → deletePlace db id = db) := by
  refine ⟨?_, ?_, ?_, ?_⟩
  · simp [deleteUser, List.filter_filter]
  · simp [deletePlace, List.filter_filter]
  · intro h
    unfold deleteUser
    have hf : db.users.filter (fun u => !(u.id == id)) = db.users :=
      List.filter_eq_self.mpr (fun u hu => by simpa using h u hu)
    rw [hf]
  · intro h
    unfold deletePlace
    have hf : db.places.filter (fun p => !(p.id == id)) = db.places :=
      List.filter_eq_self.mpr (fun p hp => by simpa using h p hp)
    rw [hf]

/-- Witness for C7: on the empty store with id 1, double deletion is
absorbed and a no-match delete leaves the store unchanged. -/
theorem delete_idempotent_witness :
    deleteUser (deleteUser emptyDB 1) 1 = deleteUser emptyDB 1 ∧
    deletePlace (deletePlace emptyDB 1) 1 = deletePlace emptyDB 1 ∧
    deleteUser emptyDB 1 = emptyDB ∧ deletePlace emptyDB 1 = emptyDB := by
  have h := delete_idempotent emptyDB 1
  exact ⟨h.1, h.2.1, h.2.2.1 (by simp [emptyDB]), h.2.2.2 (by simp [emptyDB])⟩

theorem find?_append_of_none {α : Type} {p : α → Bool} {l₁ l₂ : List α}
    (h : l₁.find? p = none) : (l₁ ++ l₂).find? p = l₂.find? p := by
  rw [List.find?_append, h, Option.none_or]

/-- C6: when every stored id is below the serial counter (the store
invariant the serial id scheme maintains), create followed by get-by-id
with the returned id yields the created row, equal to the input in all
caller-supplied fields, for User and Place alike. -/
theorem create_get_roundtrip (db : DB) (u : InsertUser) (p : InsertPlace)
    (hu : ∀ x ∈ db.users, x.id < db.nextUserId)
    (hp : ∀ x ∈ db.places, x.id < db.nextPlaceId) :
    CreateGetRoundtrip db u p := by
  constructor
  · refine ⟨?_, rfl, rfl, rfl, rfl⟩
    unfold getUser createUser
    have hnone : db.users.find? (fun x => x.id == db.nextUserId) = none :=
      List.find?_eq_none.mpr (fun x hx => by
        have := hu x hx
        simp
        omega)
    rw [find?_append_of_none hnone]
    simp
  · refine ⟨?_, rfl, rfl, rfl, rfl, rfl, rfl, rfl, rfl, rfl⟩
    unfold getPlace createPlace
    have hnone : db.places.find? (fun x => x.id == db.nextPlaceId) = none :=
      List.find?_eq_none.mpr (fun x hx => by
        have := hp x hx
        simp
        omega)
    rw [find?_append_of_none hnone]
    simp

/-- Witness for C6: the round-trip on the empty store with concrete
inputs. -/
theorem create_get_roundtrip_witness :
    (∀ x ∈ emptyDB.users, x.id < emptyDB.nextUserId) ∧
    (∀ x ∈ emptyDB.places, x.id < emptyDB.nextPlaceId) ∧
    CreateGetRoundtrip emptyDB
      { name := "Ann", email := "ann@example.com", role := "user", status := "active" }
      { name := "Cove", description := "d", location := "loc", category := "Beach",
        imageUrl := "u", rating := "4.5", status := "active", amenities := "[]",
        coordinates := "c" } :=
  ⟨by simp [emptyDB], by simp [emptyDB],
    create_get_roundtrip emptyDB _ _ (by simp [emptyDB]) (by simp [emptyDB])⟩

theorem forall2_map_self {α : Type} (R : α → α → Prop) (f : α → α) (l : List α)
    (h : ∀ x ∈ l, R x (f x)) : List.Forall₂ R l (l.map f) :=
  List.forall₂_map_right_iff.mpr (List.forall₂_same.mpr h)

theorem find?_map_pres {α : Type} (f : α → α) (q : α → Bool) (l : List α)
    (hpres : ∀ x, q (f x) = q x) (hsome : ∃ x ∈ l, q x) :
    ∃ w, l.find? q = some w ∧ (l.map f).find? q = some (f w) := by
  have h1 : (l.find? q).isSome := List.find?_isSome.mpr hsome
  obtain ⟨w, hw⟩ := Option.isSome_iff_exists.mp h1
  refine ⟨w, hw, ?_⟩
  have hqf : q ∘ f = q := funext fun x => hpres x
  rw [List.find?_map, hqf, hw]
  rfl

/-- C5: for each entity with an update-status operation, the operation
replaces exactly the status field of the rows with the given id, leaves
every other field and every other row (and every other table) unchanged,
and — when a row with the id is present — returns that row with its
status replaced. -/
theorem update_status_spec (db : DB) (id : Nat) (s : String) :
    (UserStatusFrame id s db.users (updateUserStatus db id s).2.users ∧
      (updateUserStatus db id s).2.places = db.places ∧
      (updateUserStatus db id s).2.playlists = db.playlists ∧
      (updateUserStatus db id s).2.trips = db.trips ∧
      (updateUserStatus db id s).2.reviews = db.reviews ∧
      (updateUserStatus db id s).2.photos = db.photos ∧
      ((∃ u ∈ db.users, u.id = id) →
        ∃ u, db.users.find? (fun x => x.id == id) = some u ∧
          (updateUserStatus db id s).1 = some { u with status := s })) ∧
    (PlaylistStatusFrame id s db.playlists (updatePlaylistStatus db id s).2.playlists ∧
      (updatePlaylistStatus db id s).2.users = db.users ∧
      (updatePlaylistStatus db id s).2.places = db.places ∧
      (updatePlaylistStatus db id s).2.trips = db.trips ∧
      (updatePlaylistStatus db id s).2.reviews = db.reviews ∧
      (updatePlaylistStatus db id s).2.photos = db.photos ∧
      ((∃ p ∈ db.playlists, p.id = id) →
        ∃ p, db.playlists.find? (fun x => x.id == id) = some p ∧
          (updatePlaylistStatus db id s).1 = some { p with status := s })) ∧
    (ReviewStatusFrame id s db.reviews (updateReviewStatus db id s).2.reviews ∧
      (updateReviewStatus db id s).2.users = db.users ∧
      (updateReviewStatus db id s).2.places = db.places ∧
      (updateReviewStatus db id s).2.playlists = db.playlists ∧
      (updateReviewStatus db id s).2.trips = db.trips ∧
      (updateReviewStatus db id s).2.photos = db.photos ∧
      ((∃ r ∈ db.reviews, r.id = id) →
        ∃ r, db.reviews.find? (fun x => x.id == id) = some r ∧
          (updateReviewStatus db id s).1 = some { r with status := s })) ∧
    (PhotoStatusFrame id s db.photos (updatePhotoStatus db id s).2.photos ∧
      (updatePhotoStatus db id s).2.users = db.users ∧
      (updatePhotoStatus db id s).2.places = db.places ∧
      (updatePhotoStatus db id s).2.playlists = db.playlists ∧
      (updatePhotoStatus db id s).2.trips = db.trips ∧
      (updatePhotoStatus db id s).2.reviews = db.reviews ∧
      ((∃ p ∈ db.photos, p.id = id) →
        ∃ p, db.photos.find? (fun x => x.id == id) = some p ∧
          (updatePhotoStatus db id s).1 = some { p with status := s })) := by
  refine ⟨⟨?_, rfl, rfl, rfl, rfl, rfl, ?_⟩, ⟨?_, rfl, rfl, rfl, rfl, rfl, ?_⟩,
    ⟨?_, rfl, rfl, rfl, rfl, rfl, ?_⟩, ⟨?_, rfl, rfl, rfl, rfl, rfl, ?_⟩⟩
  · refine forall2_map_self _ _ _ (fun u _ => ?_)
    by_cases h : u.id = id <;> simp [h]
  · rintro ⟨u₀, hu₀, hid⟩
    obtain ⟨w, hw1, hw2⟩ := find?_map_pres
      (fun u => if u.id == id then { u with status := s } else u)
      (fun x => x.id == id) db.users (fun x => by dsimp; split <;> rfl)
      ⟨u₀, hu₀, by simp [hid]⟩
    refine ⟨w, hw1, ?_⟩
    have hfw : (if (w.id == id) then { w with status := s } else w) = { w with status := s } := by
      simp [List.find?_some hw1]
    show (db.users.map _).find? _ = _
    rw [hw2]
    exact congrArg some hfw
  · refine forall2_map_self _ _ _ (fun p _ => ?_)
    by_cases h : p.id = id <;> simp [h]
  · rintro ⟨p₀, hp₀, hid⟩
    obtain ⟨w, hw1, hw2⟩ := find?_map_pres
      (fun p => if p.id == id then { p with status := s } else p)
      (fun x => x.id == id) db.playlists (fun x => by dsimp; split <;> rfl)
      ⟨p₀, hp₀, by simp [hid]⟩
    refine ⟨w, hw1, ?_⟩
    have hfw : (if (w.id == id) then { w with status := s } else w) = { w with status := s } := by
      simp [List.find?_some hw1]
    show (db.playlists.map _).find? _ = _
    rw [hw2]
    exact congrArg some hfw
  · refine forall2_map_self _ _ _ (fun r _ => ?_)
    by_cases h : r.id = id <;> simp [h]
  · rintro ⟨r₀, hr₀, hid⟩
    obtain ⟨w, hw1, hw2⟩ := find?_map_pres
      (fun r => if r.id == id then { r with status := s } else r)
      (fun x => x.id == id) db.reviews (fun x => by dsimp; split <;> rfl)
      ⟨r₀, hr₀, by simp [hid]⟩
    refine ⟨w, hw1, ?_⟩
    have hfw : (if (w.id == id) then { w with status := s } else w) = { w with status := s } := by
      simp [List.find?_some hw1]
    show (db.reviews.map _).find? _ = _
    rw [hw2]
    exact congrArg some hfw
  · refine forall2_map_self _ _ _ (fun p _ => ?_)
    by_cases h : p.id = id <;> simp [h]
  · rintro ⟨p₀, hp₀, hid⟩
    obtain ⟨w, hw1, hw2⟩ := find?_map_pres
      (fun p => if p.id == id then { p with status := s } else p)
      (fun x => x.id == id) db.photos (fun x => by dsimp; split <;> rfl)
      ⟨p₀, hp₀, by simp [hid]⟩
    refine ⟨w, hw1, ?_⟩
    have hfw : (if (w.id == id) then { w with status := s } else w) = { w with status := s } := by
      simp [List.find?_some hw1]
    show (db.photos.map _).find? _ = _
    rw [hw2]
    exact congrArg some hfw

/-- Witness for C5: the frame and returned-row properties hold on the
sample store at id 1. -/
theorem update_status_spec_witness :
    (∃ u ∈ sampleDB.users, u.id = 1) ∧
    (∃ p ∈ sampleDB.playlists, p.id = 1) ∧
    (∃ r ∈ sampleDB.reviews, r.id = 1) ∧
    (∃ p ∈ sampleDB.photos, p.id = 1) ∧
    UserStatusFrame 1 "approved" sampleDB.users (updateUserStatus sampleDB 1 "approved").2.users ∧
    (∃ u, sampleDB.users.find? (fun x => x.id == 1) = some u ∧
      (updateUserStatus sampleDB 1 "approved").1 = some { u with status := "approved" }) ∧
    PlaylistStatusFrame 1 "approved" sampleDB.playlists
      (updatePlaylistStatus sampleDB 1 "approved").2.playlists ∧
    (∃ p, sampleDB.playlists.find? (fun x => x.id == 1) = some p ∧
      (updatePlaylistStatus sampleDB 1 "approved").1 = some { p with status := "approved" }) ∧
    ReviewStatusFrame 1 "approved" sampleDB.reviews
      (updateReviewStatus sampleDB 1 "approved").2.reviews ∧
    (∃ r, sampleDB.reviews.find? (fun x => x.id == 1) = some r ∧
      (updateReviewStatus sampleDB 1 "approved").1 = some { r with status := "approved" }) ∧
    PhotoStatusFrame 1 "approved" sampleDB.photos
      (updatePhotoStatus sampleDB 1 "approved").2.photos ∧
    (∃ p, sampleDB.photos.find? (fun x => x.id == 1) = some p ∧
      (updatePhotoStatus sampleDB 1 "approved").1 = some { p with status := "approved" }) := by
  obtain ⟨⟨hfU, _, _, _, _, _, hrU⟩, ⟨hfP, _, _, _, _, _, hrP⟩,
    ⟨hfR, _, _, _, _, _, hrR⟩, ⟨hfG, _, _, _, _, _, hrG⟩⟩ :=
    update_status_spec sampleDB 1 "approved"
  have e1 : ∃ u ∈ sampleDB.users, u.id = 1 := ⟨sampleUser, by simp [sampleDB], rfl⟩
  have e2 : ∃ p ∈ sampleDB.playlists, p.id = 1 := ⟨samplePlaylist, by simp [sampleDB], rfl⟩
  have e3 : ∃ r ∈ sampleDB.reviews, r.id = 1 := ⟨sampleReview, by simp [sampleDB], rfl⟩
  have e4 : ∃ p ∈ sampleDB.photos, p.id = 1 := ⟨samplePhoto, by simp [sampleDB], rfl⟩
  exact ⟨e1, e2, e3, e4, hfU, hrU e1, hfP, hrP e2, hfR, hrR e3, hfG, hrG e4⟩

theorem map_if_eq_self {α : Type} (p : α → Bool) (f : α → α) :
    ∀ l : List α, (∀ a ∈ l, p a = false) →
      l.map (fun a => if p a then f a else a) = l := by
  intro l
  induction l with
  | nil => intro _; rfl
  | cons a as ih =>
    intro h
    have ha := h a (List.mem_cons_self a as)
    simp [ha, ih (fun x hx => h x (List.mem_cons_of_mem a hx))]

/-- C10: for each entity with an update-status operation, calling it
with an id matching no row returns the absent value and leaves the store
unchanged, and the corresponding PATCH handler still answers with a
success response serializing that absent value — never a 404 message
response. -/
theorem update_status_missing (db : DB) (id : Nat) (s : String) :
    ((∀ u ∈ db.users, u.id ≠ id) →
      (updateUserStatus db id s).1 = none ∧ (updateUserStatus db id s).2 = db ∧
      usersUpdateStatusHandler db id s = (.json 200 none, db) ∧
      ∀ m, (usersUpdateStatusHandler db id s).1 ≠ .jsonMessage 404 m) ∧
    ((∀ p ∈ db.playlists, p.id ≠ id) →
      (updatePlaylistStatus db id s).1 = none ∧ (updatePlaylistStatus db id s).2 = db ∧
      playlistsUpdateStatusHandler db id s = (.json 200 none, db) ∧
      ∀ m, (playlistsUpdateStatusHandler db id s).1 ≠ .jsonMessage 404 m) ∧
    ((∀ r ∈ db.reviews, r.id ≠ id) →
      (updateReviewStatus db id s).1 = none ∧ (updateReviewStatus db id s).2 = db ∧
      moderationReviewsActionHandler db id s = (.json 200 none, db) ∧
      ∀ m, (moderationReviewsActionHandler db id s).1 ≠ .jsonMessage 404 m) ∧
    ((∀ p ∈ db.photos, p.id ≠ id) →
      (updatePhotoStatus db id s).1 = none ∧ (updatePhotoStatus db id s).2 = db ∧
      moderationPhotosActionHandler db id s = (.json 200 none, db) ∧
      ∀ m, (moderationPhotosActionHandler db id s).1 ≠ .jsonMessage 404 m) := by
  refine ⟨fun h => ?_, fun h => ?_, fun h => ?_, fun h => ?_⟩
  · have hmap : db.users.map (fun u => if u.id == id then { u with status := s } else u)
        = db.users :=
      map_if_eq_self _ _ _ (fun u hu => by simp [h u hu])
    have h1 : (updateUserStatus db id s).1 = none := by
      show (db.users.map _).find? _ = none
      rw [hmap]
      exact List.find?_eq_none.mpr (fun u hu => by simpa using h u hu)
    have h2 : (updateUserStatus db id s).2 = db := by
      show { db with users := db.users.map _ } = db
      rw [hmap]
    have h3 : usersUpdateStatusHandler db id s = (.json 200 none, db) := by
      simp only [usersUpdateStatusHandler, h1, h2]
    refine ⟨h1, h2, h3, fun m hc => ?_⟩
    rw [h3] at hc
    exact HttpResponse.noConfusion hc
  · have hmap : db.playlists.map (fun p => if p.id == id then { p with status := s } else p)
        = db.playlists :=
      map_if_eq_self _ _ _ (fun p hp => by simp [h p hp])
    have h1 : (updatePlaylistStatus db id s).1 = none := by
      show (db.playlists.map _).find? _ = none
      rw [hmap]
      exact List.find?_eq_none.mpr (fun p hp => by simpa using h p hp)
    have h2 : (updatePlaylistStatus db id s).2 = db := by
      show { db with playlists := db.playlists.map _ } = db
      rw [hmap]
    have h3 : playlistsUpdateStatusHandler db id s = (.json 200 none, db) := by
      simp only [playlistsUpdateStatusHandler, h1, h2]
    refine ⟨h1, h2, h3, fun m hc => ?_⟩
    rw [h3] at hc
    exact HttpResponse.noConfusion hc
  · have hmap : db.reviews.map (fun r => if r.id == id then { r with status := s } else r)
        = db.reviews :=
      map_if_eq_self _ _ _ (fun r hr => by simp [h r hr])
    have h1 : (updateReviewStatus db id s).1 = none := by
      show (db.reviews.map _).find? _ = none
      rw [hmap]
      exact List.find?_eq_none.mpr (fun r hr => by simpa using h r hr)
    have h2 : (updateReviewStatus db id s).2 = db := by
      show { db with reviews := db.reviews.map _ } = db
      rw [hmap]
    have h3 : moderationReviewsActionHandler db id s = (.json 200 none, db) := by
      simp only [moderationReviewsActionHandler, h1, h2]
    refine ⟨h1, h2, h3, fun m hc => ?_⟩
    rw [h3] at hc
    exact HttpResponse.noConfusion hc
  · have hmap : db.photos.map (fun p => if p.id == id then { p with status := s } else p)
        = db.photos :=
      map_if_eq_self _ _ _ (fun p hp => by simp [h p hp])
    have h1 : (updatePhotoStatus db id s).1 = none := by
      show (db.photos.map _).find? _ = none
      rw [hmap]
      exact List.find?_eq_none.mpr (fun p hp => by simpa using h p hp)
    have h2 : (updatePhotoStatus db id s).2 = db := by
      show { db with photos := db.photos.map _ } = db
      rw [hmap]
    have h3 : moderationPhotosActionHandler db id s = (.json 200 none, db) := by
      simp only [moderationPhotosActionHandler, h1, h2]
    refine ⟨h1, h2, h3, fun m hc => ?_⟩
    rw [h3] at hc
    exact HttpResponse.noConfusion hc

/-- Witness for C10: the empty store has no row with id 1 in any table,
the updates return the absent value there, and the PATCH handlers answer
200 with the absent payload, not a 404 message. -/
theorem update_status_missing_witness :
    (∀ u ∈ emptyDB.users, u.id ≠ 1) ∧ (∀ p ∈ emptyDB.playlists, p.id ≠ 1) ∧
    (∀ r ∈ emptyDB.reviews, r.id ≠ 1) ∧ (∀ p ∈ emptyDB.photos, p.id ≠ 1) ∧
    (updateUserStatus emptyDB 1 "x").1 = none ∧
    usersUpdateStatusHandler emptyDB 1 "x" = (.json 200 none, emptyDB) ∧
    (usersUpdateStatusHandler emptyDB 1 "x").1 ≠ .jsonMessage 404 (some "User not found") ∧
    (updatePlaylistStatus emptyDB 1 "x").1 = none ∧
    playlistsUpdateStatusHandler emptyDB 1 "x" = (.json 200 none, emptyDB) ∧
    (updateReviewStatus emptyDB 1 "x").1 = none ∧
    moderationReviewsActionHandler emptyDB 1 "x" = (.json 200 none, emptyDB) ∧
    (updatePhotoStatus emptyDB 1 "x").1 = none ∧
    moderationPhotosActionHandler emptyDB 1 "x" = (.json 200 none, emptyDB) := by
  obtain ⟨hU, hP, hR, hG⟩ := update_status_missing emptyDB 1 "x"
  have vU := hU (by simp [emptyDB])
  have vP := hP (by simp [emptyDB])
  have vR := hR (by simp [emptyDB])
  have vG := hG (by simp [emptyDB])
  exact ⟨by simp [emptyDB], by simp [emptyDB], by simp [emptyDB], by simp [emptyDB],
    vU.1, vU.2.2.1, vU.2.2.2 (some "User not found"),
    vP.1, vP.2.2.1, vR.1, vR.2.2.1, vG.1, vG.2.2.1⟩

/-- C3 counterexample: on a rejecting validator, the playlists create
handler does not answer 400 with the first issue's message — the
validation error escapes the handler, because its parse call is not
wrapped in any catch. -/
theorem playlistsCreate_validation_escapes :
    (playlistsCreateHandler plfail emptyDB ()).1 = HttpResponse.raised e0 ∧
    (playlistsCreateHandler plfail emptyDB ()).1 ≠ HttpResponse.jsonMessage 400 (some "Required") :=
  ⟨rfl, fun h => HttpResponse.noConfusion h⟩

/-- C3 (amended): on a body failing validation, the places create route
answers 400 with the first validation issue's message, while the
playlists create route propagates the validation error to the generic
server error path instead. -/
theorem create_validation_handling {β : Type} (norm : β → β)
    (parseP : β → Except ZodError InsertPlace)
    (parseL : β → Except ZodError InsertPlaylist)
    (db : DB) (body : β) (e : ZodError) (i : ZodIssue) (rest : List ZodIssue)
    (hP : parseP (norm body) = .error e)
    (hL : parseL body = .error e)
    (hE : e.errors = i :: rest) :
    placesCreateHandler norm parseP db body = (.jsonMessage 400 (some i.message), db) ∧
    playlistsCreateHandler parseL db body = (.raised e, db) := by
  constructor
  · unfold placesCreateHandler
    rw [hP]
    simp [ZodError.firstMessage, hE]
  · unfold playlistsCreateHandler
    rw [hL]

/-- Witness for C3's amended theorem: a concrete rejecting validator on
the empty store. -/
theorem create_validation_handling_witness :
    pfail (unitNorm ()) = Except.error e0 ∧ plfail () = Except.error e0 ∧
    e0.errors = { message := "Required" } :: [] ∧
    placesCreateHandler unitNorm pfail emptyDB () = (.jsonMessage 400 (some "Required"), emptyDB) ∧
    playlistsCreateHandler plfail emptyDB () = (.raised e0, emptyDB) := by
  refine ⟨rfl, rfl, rfl, ?_, ?_⟩
  · exact (create_validation_handling unitNorm pfail plfail emptyDB () e0
      { message := "Required" } [] rfl rfl rfl).1
  · exact (create_validation_handling unitNorm pfail plfail emptyDB () e0
      { message := "Required" } [] rfl rfl rfl).2

/-- C9: seeding inserts nothing when the user table is non-empty; it is
the catch-wrapped run of the `try` body, so the caller always receives a
state and never a propagated failure; and a run with no store failure on
an empty user table adds exactly the demo dataset with its
cross-references. -/
theorem seedDatabase_spec (fails : Nat → Bool) (db : DB) :
    (db.users ≠ [] → seedDatabase fails db = db) ∧
    (seedDatabaseInner fails db = .ok (seedDatabase fails db) ∨
      seedDatabaseInner fails db = .error (seedDatabase fails db)) ∧
    (db.users = [] → SeededOutcome db (seedDatabase (fun _ => false) db)) := by
  refine ⟨?_, ?_, ?_⟩
  · intro hne
    have hlen : db.users.length ≠ 0 := by simpa [List.length_eq_zero] using hne
    have hb : ((getUsers db).length == 0) = false := by
      simp [getUsers, sortDescBy_length, hlen]
    unfold seedDatabase seedDatabaseInner
    by_cases h0 : fails 0 <;> simp [h0, hb]
  · unfold seedDatabase
    cases h : seedDatabaseInner fails db
    · right
      rfl
    · left
      rfl
  · intro he
    obtain ⟨ul, pl, wl, tl, rl, gl, n1, n2, n3, n4, n5, n6, nw⟩ := db
    simp only at he
    subst he
    unfold SeededOutcome seedDatabase seedDatabaseInner
    simp [getUsers, sortDescBy, createUser, createPlace, createPlaylist,
      createTrip, createReview, createPhoto]
    exact ⟨⟨_, Or.inr (Or.inl rfl), rfl, rfl, rfl⟩,
      ⟨_, Or.inr (Or.inl rfl), _, Or.inr (Or.inl rfl), rfl, rfl, rfl⟩,
      ⟨_, Or.inr (Or.inl rfl), _, Or.inr rfl, rfl, rfl, rfl, rfl⟩⟩

/-- Witness for C9: seeding a store with a non-empty user table changes
nothing, and a failure-free seeding run on the empty store produces the
demo dataset. -/
theorem seedDatabase_spec_witness :
    sampleDB.users ≠ [] ∧ seedDatabase (fun _ => false) sampleDB = sampleDB ∧
    emptyDB.users = [] ∧ SeededOutcome emptyDB (seedDatabase (fun _ => false) emptyDB) := by
  refine ⟨by simp [sampleDB], ?_, rfl, ?_⟩
  · exact (seedDatabase_spec (fun _ => false) sampleDB).1 (by simp [sampleDB])
  · exact (seedDatabase_spec (fun _ => false) emptyDB).2.2 rfl

/-- Witness for C2: the moderation listing properties at the sample
store. -/
theorem moderation_listing_pending_witness :
    (∃ l, moderationReviewsListHandler sampleDB = .json 200 (some l) ∧
      (∀ r ∈ l, r.status = "pending") ∧
      (∀ r ∈ getReviews sampleDB, r.status = "pending" → r ∈ l) ∧
      l ⊆ getReviews sampleDB) ∧
    (∃ l, moderationPhotosListHandler sampleDB = .json 200 (some l) ∧
      (∀ p ∈ l, p.status = "pending") ∧
      (∀ p ∈ getPhotos sampleDB, p.status = "pending" → p ∈ l) ∧
      l ⊆ getPhotos sampleDB) :=
  moderation_listing_pending sampleDB

/-- Witness for C8: the activity series shape at a concrete outcome
sequence of the random source. -/
theorem getActivityStats_shape_witness :
    (getActivityStats sampleRng).length = 6 ∧
    (getActivityStats sampleRng).map ActivityEntry.date =
      ["2024-01", "2024-02", "2024-03", "2024-04", "2024-05", "2024-06"] ∧
    ∀ e ∈ getActivityStats sampleRng,
      10 ≤ e.trips ∧ e.trips ≤ 59 ∧ 5 ≤ e.playlists ∧ e.playlists ≤ 24 :=
  getActivityStats_shape sampleRng

end SeyGo
